import Mathlib

/-!
Shallow embedding of `scripts/fpv_energy_scan.py` (wardragon-fpv-detect).

Python floats are modelled as rationals (`ℚ`): every arithmetic operation the
embedded code performs on them (comparison, max, addition of small decimal
constants, halving for a two-element median) is exact on the float values that
occur, so the rational model agrees with the float semantics on those inputs.

External effects (the subprocess, the ZMQ sockets, the SDR driver) are
modelled as explicit inputs: each embedded function takes the outcome of the
effect it performs (what the subprocess produced, what message the socket
delivered, whether starting the top block raised) and returns the state it
leaves behind together with the visible events it emits.
-/

namespace FpvScan

/-! ### Constants from the top of the script -/

def SAMP_RATE : ℚ := 8000000
def BANDWIDTH : ℚ := 8000000
def THRESHOLD_DB : ℚ := -90
def MIN_BW_HZ : ℚ := 4000000
def SETTLE_S : ℚ := 0.12
def DWELL_S : ℚ := 0.4
def WARMUP_SWEEPS : Nat := 1
def THRESHOLD_OFFSET_DB : ℚ := 6
def CONFIRM_SECONDS : Nat := 5
def COOLDOWN_S : ℚ := 3
def REOPEN_RETRIES : Nat := 5
def REOPEN_DELAY_S : ℚ := 2

/-! ### Python's `statistics.median` on rationals

`statistics.median` sorts the data; for odd length it returns the middle
element, for even length the mean of the two middle elements; on empty data it
raises `StatisticsError`, modelled as `none`. -/

/-- Insert into a sorted list, keeping ascending order (stable). -/
def insertSorted (x : ℚ) : List ℚ → List ℚ
  | [] => [x]
  | y :: ys => if x ≤ y then x :: y :: ys else y :: insertSorted x ys

/-- Ascending stable sort, as `sorted(xs)` produces on numbers. -/
def pySorted (xs : List ℚ) : List ℚ := xs.foldr insertSorted []

/-- Python `statistics.median`: `none` models the `StatisticsError` raised on
empty data. -/
def pyMedian (xs : List ℚ) : Option ℚ :=
  match pySorted xs with
  | [] => none
  | s@(_ :: _) =>
    if s.length % 2 = 1 then some (s.getD (s.length / 2) 0)
    else some ((s.getD (s.length / 2 - 1) 0 + s.getD (s.length / 2) 0) / 2)

/-! ### `parse_rf_map`

The oracle message is `none` when `message_debug` stored nothing yet
(`get_latest_map` returned `None`), otherwise the list of
(frequency-offset, bandwidth) rows of the latest RF map. -/

/-- Model of `parse_rf_map(msg, center_hz)`: append `(center+off, bw)` for
every row with `bw >= MIN_BW_HZ`. -/
def parse_rf_map (msg : Option (List (ℚ × ℚ))) (center_hz : ℚ) : List (ℚ × ℚ) :=
  match msg with
  | none => []
  | some rows =>
    rows.foldl
      (fun acc row => if MIN_BW_HZ ≤ row.2 then acc ++ [(center_hz + row.1, row.2)] else acc)
      []

/-! ### Location tracker (`is_valid_latlon`, `poll_monitor_for_gps`) -/

/-- Value of a JSON object field as Python sees it: `num` covers everything
`isinstance(v, (int, float))` accepts (ints, floats, bools), `nonNumeric`
covers the rest (strings, lists, objects, null). -/
inductive PyVal where
  | num (q : ℚ)
  | nonNumeric
deriving DecidableEq, Repr

/-- Value found under the `alt` key: `conv q` when `float(v)` yields `q`
(numbers, numeric strings), `raisesOnFloat` when `float(v)` raises. -/
inductive AltVal where
  | conv (q : ℚ)
  | raisesOnFloat
deriving DecidableEq, Repr

/-- One attempt to receive from the monitor socket. `recvNothing` covers
`zmq.Again` and any receive exception (both swallowed); `badJson` a
`json.JSONDecodeError`; `nonObject` a message decoding to a JSON value that is
not an object (on which `payload.get` raises `AttributeError`); `obj` a JSON
object with the values found under the `lat`, `lon`, `alt` keys (`none` =
key absent). -/
inductive MonMsg where
  | recvNothing
  | badJson
  | nonObject
  | obj (lat lon : Option PyVal) (alt : Option AltVal)
deriving DecidableEq, Repr

/-- Model of `is_valid_latlon(lat, lon)`. -/
def is_valid_latlon (lat lon : Option PyVal) : Bool :=
  match lat, lon with
  | some (.num la), some (.num lo) =>
    decide (-90 ≤ la) && decide (la ≤ 90) && decide (-180 ≤ lo) && decide (lo ≤ 180)
  | _, _ => false

/-- Extraction performed by `float(lat)` once `is_valid_latlon` passed (the
default is unreachable then). -/
def pyFloatOfVal : Option PyVal → ℚ
  | some (.num q) => q
  | _ => 0

/-- Model of `poll_monitor_for_gps`: the state is `_last_sensor_gps`;
`Except.error` models an uncaught Python exception escaping the function. -/
def poll_monitor_for_gps (gps : Option (ℚ × ℚ × ℚ)) (m : MonMsg) :
    Except String (Option (ℚ × ℚ × ℚ)) :=
  match m with
  | .recvNothing => .ok gps
  | .badJson => .ok gps
  | .nonObject => .error "AttributeError"
  | .obj lat lon alt =>
    if is_valid_latlon lat lon then
      match alt with
      | none => .ok (some (pyFloatOfVal lat, pyFloatOfVal lon, 0))
      | some (.conv a) => .ok (some (pyFloatOfVal lat, pyFloatOfVal lon, a))
      | some .raisesOnFloat => .error "ValueError"
    else .ok gps

/-! ### Confirmation engine (`_disable_confirm`, `run_confirm`) -/

/-- Global state of the circuit breaker: `_confirm_disabled_reason` plus the
warning lines printed so far by `_disable_confirm`. -/
structure ConfirmState where
  disabledReason : Option String
  warnLog : List String
deriving DecidableEq, Repr

def initialConfirmState : ConfirmState := ⟨none, []⟩

/-- Model of `_disable_confirm(reason)`: records the first reason and prints
the warning once; later calls change nothing. -/
def disable_confirm (st : ConfirmState) (reason : String) : ConfirmState :=
  match st.disabledReason with
  | some _ => st
  | none => ⟨some reason, st.warnLog ++ [reason]⟩

/-- One line of classifier output, abstracted to the distinctions
`run_confirm` makes: `unstructured` = the line does not start with a brace
(skipped outright, does not consume the header budget); `malformed` = starts
with a brace but `json.loads` fails; `record` = decodes, with the values of
`signal.pal` / `signal.ntsc` (`none` = field absent, defaulted to 0.0). -/
inductive ConfirmLine where
  | unstructured
  | malformed
  | record (pal ntsc : Option ℚ)
deriving DecidableEq, Repr

/-- Outcome of `subprocess.run` on the suscli command line.
`unknownCommandInOutput` states whether the combined stdout+stderr text
contains "Unknown command" or "unknown command". -/
inductive SubpOutcome where
  | fileNotFound
  | timedOut (partialLines : List ConfirmLine)
  | completed (returncode : Int) (outLines : List ConfirmLine) (unknownCommandInOutput : Bool)
deriving DecidableEq, Repr

/-- One step of the parsing loop of `run_confirm`: state is
(remaining header skips, max_pal, max_ntsc). -/
def confirmStep : (Nat × ℚ × ℚ) → ConfirmLine → (Nat × ℚ × ℚ)
  | (skip, mp, mn), .unstructured => (skip, mp, mn)
  | (skip + 1, mp, mn), _ => (skip, mp, mn)
  | (0, mp, mn), .malformed => (0, mp, mn)
  | (0, mp, mn), .record pal ntsc => (0, max mp (pal.getD 0), max mn (ntsc.getD 0))

/-- The parsing loop of `run_confirm`: skip_lines = 2, maxima start at 0.0. -/
def parseConfirmOutput (lines : List ConfirmLine) : ℚ × ℚ :=
  (lines.foldl confirmStep (2, 0, 0)).2

/-- Model of `run_confirm(center_hz)`. Returns the new breaker state, the
result (`none` = the Python `(None, None)` pair), and whether a subprocess
was spawned at all. -/
def run_confirm (st : ConfirmState) (o : SubpOutcome) :
    ConfirmState × Option (ℚ × ℚ) × Bool :=
  match st.disabledReason with
  | some _ => (st, none, false)
  | none =>
    match o with
    | .fileNotFound =>
      (disable_confirm st "suscli not found in PATH", none, true)
    | .timedOut lines =>
      (st, some (parseConfirmOutput lines), true)
    | .completed rc lines unk =>
      if rc ≠ 0 ∧ unk then
        (disable_confirm st "suscli fpvdet command not available", none, true)
      else
        (st, some (parseConfirmOutput lines), true)

/-- Folding `run_confirm` over a sequence of subprocess outcomes, keeping only
the breaker state (each element is one `run_confirm` call). -/
def runConfirmSeq (st : ConfirmState) (outs : List SubpOutcome) : ConfirmState :=
  outs.foldl (fun s o => (run_confirm s o).1) st

/-! ### Spec-side companion for the parsing loop

Used to state claim C5: the decoded (pal?, ntsc?) records remaining after the
two-structured-line header skip, in output order. -/

def decodedStep : (Nat × List (Option ℚ × Option ℚ)) → ConfirmLine →
    (Nat × List (Option ℚ × Option ℚ))
  | (skip, acc), .unstructured => (skip, acc)
  | (skip + 1, acc), _ => (skip, acc)
  | (0, acc), .malformed => (0, acc)
  | (0, acc), .record pal ntsc => (0, acc ++ [(pal, ntsc)])

/-- The records that decode after the header skip (claim C5's
"decoded lines"). -/
def decodedRecords (lines : List ConfirmLine) : List (Option ℚ × Option ℚ) :=
  (lines.foldl decodedStep (2, [])).2

/-! ### `start_tb_with_retry` -/

/-- Outcome of one attempt of the retry loop: `constructFail` = the
`InspectorScan(...)` constructor raised (this happens outside the `try`),
`startFail` = `tb.start()` raised `RuntimeError` (caught), `ok` = started. -/
inductive AttemptOutcome where
  | constructFail
  | startFail
  | ok
deriving DecidableEq, Repr

/-- Result of `start_tb_with_retry`: `opened` with the 1-based attempt that
succeeded and the number of 2-second sleeps taken; `constructRaised` when a
constructor exception propagated out uncaught; `exhausted` the final
`RuntimeError("failed to reopen SDR after retries")`. -/
inductive TbOpenResult where
  | opened (attemptsUsed sleepsTaken : Nat)
  | constructRaised (attemptsUsed sleepsTaken : Nat)
  | exhausted (sleepsTaken : Nat)
deriving DecidableEq, Repr

/-- The `for attempt in range(1, REOPEN_RETRIES + 1)` loop; `f k` is the
outcome attempt `k` would have. -/
def retryGo (f : Nat → AttemptOutcome) : Nat → Nat → TbOpenResult
  | attempt, 0 => .exhausted (attempt - 1)
  | attempt, fuel + 1 =>
    match f attempt with
    | .ok => .opened attempt (attempt - 1)
    | .constructFail => .constructRaised attempt (attempt - 1)
    | .startFail => retryGo f (attempt + 1) fuel

/-- Model of `start_tb_with_retry(...)`. -/
def start_tb_with_retry (f : Nat → AttemptOutcome) : TbOpenResult :=
  retryGo f 1 REOPEN_RETRIES

/-! ### Alerts (`build_alert_messages`) and the scan-loop trace -/

/-- One typed part of an alert. The `Basic ID` part's formatted id string is
modelled by the raw center frequency it formats. -/
inductive AlertPart where
  | basicId (centerHz : ℚ) (description : String)
  | locationVector (lat lon alt heightAgl speed vertSpeed : ℚ)
  | selfId (source : String)
  | freqMsg (frequency : ℚ)
  | signalInfo (source : String) (centerHz bandwidthHz palConf ntscConf : ℚ)
deriving DecidableEq, Repr

/-- Model of `build_alert_messages(center_hz, bandwidth_hz, pal, ntsc,
source)` reading `_last_sensor_gps`. -/
def build_alert_messages (gps : Option (ℚ × ℚ × ℚ))
    (centerHz bandwidthHz pal ntsc : ℚ) (source : String) : List AlertPart :=
  [.basicId centerHz "FPV Signal"] ++
  (match gps with
   | some (la, lo, al) => [.locationVector la lo al 0 0 0]
   | none => []) ++
  [.selfId source, .freqMsg centerHz,
   .signalInfo source centerHz bandwidthHz pal ntsc]

/-- Observable events of the scan loop, in program order. `confirmCall`
records the frequency handed to `run_confirm` and whether a subprocess was
actually spawned (false once the breaker is set). -/
inductive Event where
  | tune (hz : ℚ)
  | sleep (seconds : ℚ)
  | logLine (s : String)
  | publish (alert : List AlertPart)
  | closeHW
  | confirmCall (hz : ℚ) (spawned : Bool)
  | openHW
deriving DecidableEq, Repr

/-- Python `max(signals, key=lambda s: s[1])`: first maximal element wins on
ties. -/
def pyMaxBySnd (h : ℚ × ℚ) (t : List (ℚ × ℚ)) : ℚ × ℚ :=
  t.foldl (fun best s => if best.2 < s.2 then s else best) h

/-- Inputs one iteration of the inner `for mhz in ALL_CENTERS_MHZ` loop
consumes from the outside world. -/
structure VisitIn where
  pubEnabled : Bool
  gps : Option (ℚ × ℚ × ℚ)
  centerHz : ℚ
  oracleMsg : Option (List (ℚ × ℚ))
  subp : SubpOutcome
deriving Repr

/-- Model of one iteration of the scan loop body (main's inner loop): the
channel is tuned and dwelt on, the RF map parsed; with no signals the loop
just logs; with signals the widest-bandwidth pair becomes the candidate, an
energy alert is published (publishing enabled), the top block is stopped,
`run_confirm` runs, its result is logged/published, and the top block is
reopened. Entered with the top block open, left with it open. -/
def visitChannel (st : ConfirmState) (v : VisitIn) : ConfirmState × List Event :=
  match parse_rf_map v.oracleMsg v.centerHz with
  | [] =>
    (st, [.tune v.centerHz, .sleep SETTLE_S, .sleep DWELL_S, .logLine "signals: none"])
  | s :: rest =>
    let cand := pyMaxBySnd s rest
    let rc := run_confirm st v.subp
    (rc.1,
      [.tune v.centerHz, .sleep SETTLE_S, .sleep DWELL_S, .logLine "signals"] ++
      (if v.pubEnabled then
        [.publish (build_alert_messages v.gps cand.1 cand.2 0 0 "energy")]
       else []) ++
      [.closeHW, .sleep COOLDOWN_S, .confirmCall cand.1 rc.2.2] ++
      (match rc.2.1 with
       | none => [.logLine "confirm skipped"]
       | some (pal, ntsc) =>
         [.logLine "confirm"] ++
         (if v.pubEnabled then
           [.publish (build_alert_messages v.gps cand.1 cand.2 pal ntsc "confirm")]
          else [])) ++
      [.sleep COOLDOWN_S, .openHW])

/-- The scan loop over a finite list of channel visits, concatenating the
event traces and threading the breaker state. -/
def runVisits (st : ConfirmState) : List VisitIn → ConfirmState × List Event
  | [] => (st, [])
  | v :: rest =>
    let r1 := visitChannel st v
    let r2 := runVisits r1.1 rest
    (r2.1, r1.2 ++ r2.2)

/-! ### Hardware-state bookkeeping over event traces -/

/-- Hardware open/closed state after one event (`true` = top block open). -/
def hwAfter (b : Bool) : Event → Bool
  | .closeHW => false
  | .openHW => true
  | _ => b

/-- Hardware state after a trace, starting from `b`. -/
def hwAt (b : Bool) (evs : List Event) : Bool := evs.foldl hwAfter b

/-- Checks that every `confirmCall` in the trace happens while the hardware
is closed, tracking the open/closed state from `b`. -/
def confirmsClosed (b : Bool) : List Event → Bool
  | [] => true
  | e :: rest =>
    (match e with | .confirmCall _ _ => !b | _ => true) && confirmsClosed (hwAfter b e) rest

/-- Number of `confirmCall` events in a trace. -/
def countConfirms : List Event → Nat
  | [] => 0
  | .confirmCall _ _ :: rest => countConfirms rest + 1
  | _ :: rest => countConfirms rest

/-! ### `warmup_threshold` -/

/-- Model of `warmup_threshold(tb)`: `spectra` is the sequence of
`get_latest_spectrum()` vectors observed, one per (sweep, channel); empty
vectors are falsy and skipped, a `StatisticsError` from `median` is skipped
(unreachable for non-empty data), and the final threshold is the median of
the collected medians plus the offset, or the static default when nothing was
collected. -/
def warmup_threshold (spectra : List (List ℚ)) : ℚ :=
  let medians :=
    spectra.foldl
      (fun acc sp =>
        if sp.isEmpty then acc
        else match pyMedian sp with
          | none => acc
          | some m => acc ++ [m])
      []
  if medians.isEmpty then THRESHOLD_DB
  else (pyMedian medians).getD 0 + THRESHOLD_OFFSET_DB

/-! ## Helper lemmas -/

theorem parse_rf_map_foldl (rows : List (ℚ × ℚ)) (c : ℚ) (acc : List (ℚ × ℚ)) :
    rows.foldl
      (fun acc row => if MIN_BW_HZ ≤ row.2 then acc ++ [(c + row.1, row.2)] else acc)
      acc
    = acc ++ (rows.filter fun r => MIN_BW_HZ ≤ r.2).map fun r => (c + r.1, r.2) := by
  induction rows generalizing acc with
  | nil => simp
  | cons r rs ih =>
    simp only [List.foldl_cons, List.filter_cons]
    by_cases h : MIN_BW_HZ ≤ r.2
    · simp [h, ih]
    · simp [h, ih]

theorem insertSorted_ne_nil (x : ℚ) (l : List ℚ) : insertSorted x l ≠ [] := by
  cases l with
  | nil => simp [insertSorted]
  | cons y ys =>
    simp only [insertSorted]
    split <;> simp

theorem pyMedian_nil : pyMedian ([] : List ℚ) = none := rfl

theorem pyMedian_isSome_of_ne_nil (xs : List ℚ) (h : xs ≠ []) : (pyMedian xs).isSome := by
  cases xs with
  | nil => exact absurd rfl h
  | cons x t =>
    unfold pyMedian pySorted
    simp only [List.foldr_cons]
    cases hs : insertSorted x (t.foldr insertSorted []) with
    | nil => exact absurd hs (insertSorted_ne_nil _ _)
    | cons a l =>
      split
      · simp_all
      · split <;> simp

theorem warmup_medians_eq_filterMap (spectra : List (List ℚ)) (acc : List ℚ) :
    spectra.foldl
      (fun acc sp =>
        if sp.isEmpty then acc
        else match pyMedian sp with
          | none => acc
          | some m => acc ++ [m])
      acc
    = acc ++ spectra.filterMap pyMedian := by
  induction spectra generalizing acc with
  | nil => simp
  | cons sp rest ih =>
    simp only [List.foldl_cons, List.filterMap_cons]
    by_cases h : sp.isEmpty = true
    · have hnil : sp = [] := List.isEmpty_iff.mp h
      subst hnil
      rw [if_pos h, pyMedian_nil]
      exact ih acc
    · rw [if_neg h]
      rcases hm : pyMedian sp with _ | m
      · simp only [hm]
        exact ih acc
      · simp only [hm]
        rw [ih (acc ++ [m]), List.append_assoc]
        rfl

/-! ## Claim C8 -/

/-- Claim C8: for every oracle message and channel center, `parse_rf_map`
returns exactly the reported pairs whose bandwidth is at least `MIN_BW_HZ`
(4 MHz), each converted to absolute frequency by adding the channel center to
its offset; pairs below the minimum are never returned, and a missing oracle
message yields the empty report. -/
theorem parse_rf_map_filter_correct :
    (∀ c : ℚ, parse_rf_map none c = []) ∧
    (∀ (rows : List (ℚ × ℚ)) (c : ℚ),
      parse_rf_map (some rows) c =
        (rows.filter fun r => MIN_BW_HZ ≤ r.2).map fun r => (c + r.1, r.2)) ∧
    (∀ (m : Option (List (ℚ × ℚ))) (c : ℚ) (p : ℚ × ℚ),
      p ∈ parse_rf_map m c → MIN_BW_HZ ≤ p.2) := by
  refine ⟨fun c => rfl, fun rows c => ?_, fun m c p hp => ?_⟩
  · simpa using parse_rf_map_foldl rows c []
  · cases m with
    | none => simp [parse_rf_map] at hp
    | some rows =>
      rw [show parse_rf_map (some rows) c =
            (rows.filter fun r => MIN_BW_HZ ≤ r.2).map fun r => (c + r.1, r.2) from by
          simpa using parse_rf_map_foldl rows c []] at hp
      obtain ⟨r, hr, hrp⟩ := List.mem_map.mp hp
      have := List.of_mem_filter hr
      simp only [decide_eq_true_eq] at this
      simpa [← hrp] using this

/-- Witness for C8: a concrete pair at exactly the minimum bandwidth is
returned and satisfies the bound. -/
theorem parse_rf_map_filter_correct_witness :
    ((100 : ℚ), (4000000 : ℚ)).2 ≥ MIN_BW_HZ :=
  parse_rf_map_filter_correct.2.2 (some [(0, 4000000)]) 100 (100, 4000000) (by
    rw [parse_rf_map_filter_correct.2.1]
    simp [MIN_BW_HZ])

/-! ## Claim C6 -/

/-- Claim C6: the calibrated threshold equals the median of the recorded
per-channel medians plus exactly 6.0 dB (channels whose sample is empty or
whose median is undefined are excluded), and when no samples were recorded it
equals the static default threshold of -90.0 dB; the per-channel medians
-95, -93, -94 yield -88.0. -/
theorem warmup_threshold_calibration :
    (∀ spectra : List (List ℚ),
      warmup_threshold spectra =
        match pyMedian (spectra.filterMap pyMedian) with
        | none => THRESHOLD_DB
        | some m => m + THRESHOLD_OFFSET_DB) ∧
    warmup_threshold [[-95], [-93], [-94]] = -88 ∧
    warmup_threshold [] = THRESHOLD_DB ∧ THRESHOLD_DB = -90 := by
  refine ⟨fun spectra => ?_,
    by norm_num [warmup_threshold, pyMedian, pySorted, insertSorted, THRESHOLD_DB,
      THRESHOLD_OFFSET_DB],
    by norm_num [warmup_threshold, THRESHOLD_DB], by norm_num [THRESHOLD_DB]⟩
  unfold warmup_threshold
  rw [warmup_medians_eq_filterMap spectra []]
  simp only [List.nil_append]
  cases hm : spectra.filterMap pyMedian with
  | nil => simp [pyMedian_nil]
  | cons x t =>
    have hsome := pyMedian_isSome_of_ne_nil (x :: t) (by simp)
    obtain ⟨q, hq⟩ := Option.isSome_iff_exists.mp hsome
    simp [hq]

/-! ## Claim C2 -/

theorem run_confirm_of_disabled (st : ConfirmState) (o : SubpOutcome) (r : String)
    (h : st.disabledReason = some r) : run_confirm st o = (st, none, false) := by
  unfold run_confirm
  rw [h]

/-- Invariant linking the breaker flag and the warning log: the warning has
been printed exactly when (and for exactly the reason that) the flag is set. -/
def breakerInv (st : ConfirmState) : Prop :=
  (st.disabledReason = none ∧ st.warnLog = []) ∨
  ∃ r, st.disabledReason = some r ∧ st.warnLog = [r]

theorem disable_confirm_preserves_inv (st : ConfirmState) (reason : String)
    (h : breakerInv st) : breakerInv (disable_confirm st reason) := by
  rcases h with ⟨h1, h2⟩ | ⟨r, h1, h2⟩
  · right
    exact ⟨reason, by simp [disable_confirm, h1, h2]⟩
  · right
    exact ⟨r, by simp [disable_confirm, h1, h2]⟩

theorem run_confirm_preserves_inv (st : ConfirmState) (o : SubpOutcome)
    (h : breakerInv st) : breakerInv (run_confirm st o).1 := by
  unfold run_confirm
  cases hr : st.disabledReason with
  | some r => simpa using h
  | none =>
    cases o with
    | fileNotFound => exact disable_confirm_preserves_inv st _ h
    | timedOut lines => simpa using h
    | completed rc lines unk =>
      by_cases hc : rc ≠ 0 ∧ unk
      · simp only [if_pos hc]
        exact disable_confirm_preserves_inv st _ h
      · simp only [if_neg hc]
        exact h

theorem runConfirmSeq_preserves_inv (st : ConfirmState) (outs : List SubpOutcome)
    (h : breakerInv st) : breakerInv (runConfirmSeq st outs) := by
  induction outs generalizing st with
  | nil => exact h
  | cons o rest ih => exact ih _ (run_confirm_preserves_inv st o h)

theorem runConfirmSeq_sticky (st : ConfirmState) (outs : List SubpOutcome) (r : String)
    (h : st.disabledReason = some r) : (runConfirmSeq st outs).disabledReason = some r := by
  induction outs generalizing st with
  | nil => exact h
  | cons o rest ih =>
    have hstep : (run_confirm st o).1 = st := by rw [run_confirm_of_disabled st o r h]
    show (runConfirmSeq (run_confirm st o).1 rest).disabledReason = some r
    rw [hstep]
    exact ih st h

/-- Claim C2: the confirmation circuit breaker is sticky and
first-reason-wins. Once the breaker flag is set it stays set with the same
reason for every later call; a disabled `run_confirm` call returns the Python
`(None, None)` immediately, spawns no subprocess and changes nothing; and
across any call sequence from the clean start the disable warning is printed
at most once. -/
theorem confirm_breaker_sticky_once :
    (∀ (st : ConfirmState) (o : SubpOutcome) (r : String),
      st.disabledReason = some r → run_confirm st o = (st, none, false)) ∧
    (∀ (st : ConfirmState) (outs : List SubpOutcome) (r : String),
      st.disabledReason = some r → (runConfirmSeq st outs).disabledReason = some r) ∧
    (∀ outs : List SubpOutcome,
      (runConfirmSeq initialConfirmState outs).warnLog.length ≤ 1) := by
  refine ⟨run_confirm_of_disabled, runConfirmSeq_sticky, fun outs => ?_⟩
  have h := runConfirmSeq_preserves_inv initialConfirmState outs
    (Or.inl ⟨rfl, rfl⟩)
  rcases h with ⟨_, h2⟩ | ⟨r, _, h2⟩ <;> simp [h2]

/-- Witness for C2 at a concrete already-disabled state and a concrete call
sequence. -/
theorem confirm_breaker_sticky_once_witness :
    run_confirm ⟨some "r", ["r"]⟩ .fileNotFound = (⟨some "r", ["r"]⟩, none, false) ∧
    (runConfirmSeq ⟨some "r", ["r"]⟩
      [.fileNotFound, .timedOut [], .completed 1 [] true]).disabledReason = some "r" ∧
    (runConfirmSeq initialConfirmState [.fileNotFound, .fileNotFound]).warnLog.length ≤ 1 :=
  ⟨confirm_breaker_sticky_once.1 _ _ "r" rfl,
   confirm_breaker_sticky_once.2.1 _ _ "r" rfl,
   confirm_breaker_sticky_once.2.2 _⟩

/-! ## Claim C3 -/

theorem retryGo_exhausted (fuel : Nat) (f : Nat → AttemptOutcome) (a : Nat)
    (h : ∀ j, j < fuel → f (a + j) = .startFail) :
    retryGo f a fuel = .exhausted (a + fuel - 1) := by
  induction fuel generalizing a with
  | zero => rfl
  | succ fuel ih =>
    have h0 : f a = .startFail := by simpa using h 0 (Nat.succ_pos _)
    show (match f a with
      | .ok => TbOpenResult.opened a (a - 1)
      | .constructFail => TbOpenResult.constructRaised a (a - 1)
      | .startFail => retryGo f (a + 1) fuel) = _
    rw [h0]
    have := ih (a + 1) (fun j hj => by
      have := h (j + 1) (Nat.succ_lt_succ hj)
      simpa [Nat.add_assoc, Nat.add_comm 1 j] using this)
    rw [this, show a + 1 + fuel - 1 = a + (fuel + 1) - 1 from by omega]

theorem retryGo_hits (k fuel : Nat) (f : Nat → AttemptOutcome) (a : Nat)
    (hk : k < fuel) (hfail : ∀ j, j < k → f (a + j) = .startFail) :
    (f (a + k) = .ok → retryGo f a fuel = .opened (a + k) (a + k - 1)) ∧
    (f (a + k) = .constructFail →
      retryGo f a fuel = .constructRaised (a + k) (a + k - 1)) := by
  induction k generalizing a fuel with
  | zero =>
    obtain ⟨fuel, rfl⟩ : ∃ m, fuel = m + 1 := ⟨fuel - 1, by omega⟩
    constructor <;> intro hout <;>
      · show (match f a with
          | .ok => TbOpenResult.opened a (a - 1)
          | .constructFail => TbOpenResult.constructRaised a (a - 1)
          | .startFail => retryGo f (a + 1) fuel) = _
        simp at hout
        rw [hout]
        simp
  | succ k ih =>
    obtain ⟨fuel, rfl⟩ : ∃ m, fuel = m + 1 := ⟨fuel - 1, by omega⟩
    have h0 : f a = .startFail := by simpa using hfail 0 (Nat.succ_pos _)
    have hshift : ∀ j, j < k → f (a + 1 + j) = .startFail := fun j hj => by
      have := hfail (j + 1) (Nat.succ_lt_succ hj)
      simpa [Nat.add_assoc, Nat.add_comm 1 j] using this
    have ihx := ih fuel (a + 1) (by omega) hshift
    have harith : a + 1 + k = a + (k + 1) := by omega
    rw [harith] at ihx
    constructor <;> intro hout <;>
      · show (match f a with
          | .ok => TbOpenResult.opened a (a - 1)
          | .constructFail => TbOpenResult.constructRaised a (a - 1)
          | .startFail => retryGo f (a + 1) fuel) = _
        rw [h0]
        first
        | exact ihx.1 hout
        | exact ihx.2 hout

/-- Claim C3 (amended): the reopen helper makes at most `REOPEN_RETRIES = 5`
attempts with a 2-second delay after each failed start; five failed starts are
fatal (a `RuntimeError` with a diagnostic propagates and terminates the
process); a start failing on the first `k` attempts and succeeding on attempt
`k+1` opens after `k` delays. Only a `RuntimeError` from starting is retried:
a constructor failure on attempt `k+1` propagates immediately after `k`
delays, with no further attempts. -/
theorem start_tb_retry_bound :
    (∀ f : Nat → AttemptOutcome,
      (∀ k, k < REOPEN_RETRIES → f (k + 1) = .startFail) →
      start_tb_with_retry f = .exhausted 5) ∧
    (∀ (f : Nat → AttemptOutcome) (k : Nat), k < REOPEN_RETRIES →
      (∀ j, j < k → f (j + 1) = .startFail) → f (k + 1) = .ok →
      start_tb_with_retry f = .opened (k + 1) k) ∧
    (∀ (f : Nat → AttemptOutcome) (k : Nat), k < REOPEN_RETRIES →
      (∀ j, j < k → f (j + 1) = .startFail) → f (k + 1) = .constructFail →
      start_tb_with_retry f = .constructRaised (k + 1) k) := by
  refine ⟨fun f h => ?_, fun f k hk hfail hok => ?_, fun f k hk hfail hcf => ?_⟩
  · have := retryGo_exhausted REOPEN_RETRIES f 1 (fun j hj => by
      simpa [Nat.add_comm 1 j] using h j hj)
    simpa [start_tb_with_retry, REOPEN_RETRIES] using this
  · have := (retryGo_hits k REOPEN_RETRIES f 1 hk (fun j hj => by
      simpa [Nat.add_comm 1 j] using hfail j hj)).1 (by
        simpa [Nat.add_comm 1 k] using hok)
    have harith : 1 + k = k + 1 := by omega
    rw [harith] at this
    simpa [start_tb_with_retry] using this
  · have := (retryGo_hits k REOPEN_RETRIES f 1 hk (fun j hj => by
      simpa [Nat.add_comm 1 j] using hfail j hj)).2 (by
        simpa [Nat.add_comm 1 k] using hcf)
    have harith : 1 + k = k + 1 := by omega
    rw [harith] at this
    simpa [start_tb_with_retry] using this

/-- Witness for C3's amended theorem at concrete attempt outcomes: all starts
fail (fatal after 5 attempts and 5 delays); two start failures then success
(opened on attempt 3 after 2 delays); immediate constructor failure
(propagates on attempt 1 with no delay). -/
theorem start_tb_retry_bound_witness :
    start_tb_with_retry (fun _ => .startFail) = .exhausted 5 ∧
    start_tb_with_retry (fun k => if k ≤ 2 then .startFail else .ok) = .opened 3 2 ∧
    start_tb_with_retry (fun k => if k = 1 then .constructFail else .ok) =
      .constructRaised 1 0 :=
  ⟨start_tb_retry_bound.1 _ (fun k _ => rfl),
   start_tb_retry_bound.2.1 _ 2 (by decide) (by decide) (by decide),
   start_tb_retry_bound.2.2 _ 0 (by decide) (fun j hj => absurd hj (by omega)) (by decide)⟩

/-- Counterexample for C3 as stated: the claim says opening retries
"whenever constructing and starting the pipeline fails", but the
`InspectorScan(...)` constructor call sits outside the `try` block, so a
construction failure is not retried: with attempt 1 failing in the
constructor and attempt 2 certain to succeed, the helper does not reach
attempt 2 — it propagates the constructor exception at once. -/
theorem retry_ignores_construct_failure :
    ¬ (∀ f : Nat → AttemptOutcome, f 1 ≠ .ok → f 2 = .ok →
        ∃ s, start_tb_with_retry f = .opened 2 s) := by
  intro h
  obtain ⟨s, hs⟩ := h (fun k => if k = 1 then .constructFail else .ok)
    (by decide) (by decide)
  have : start_tb_with_retry (fun k => if k = 1 then .constructFail else .ok) =
      .constructRaised 1 0 := by decide
  rw [this] at hs
  exact TbOpenResult.noConfusion hs

/-! ## Claim C5 -/

theorem decodedStep_acc (lines : List ConfirmLine) (skip : Nat)
    (acc : List (Option ℚ × Option ℚ)) :
    (lines.foldl decodedStep (skip, acc)).2 =
      acc ++ (lines.foldl decodedStep (skip, [])).2 := by
  induction lines generalizing skip acc with
  | nil => simp
  | cons e rest ih =>
    cases e with
    | unstructured =>
      cases skip with
      | zero => exact ih 0 acc
      | succ k => exact ih (k + 1) acc
    | malformed =>
      cases skip with
      | zero => exact ih 0 acc
      | succ k => exact ih k acc
    | record pal ntsc =>
      cases skip with
      | zero =>
        show (rest.foldl decodedStep (0, acc ++ [(pal, ntsc)])).2 =
          acc ++ (rest.foldl decodedStep (0, [] ++ [(pal, ntsc)])).2
        rw [ih 0 (acc ++ [(pal, ntsc)]), ih 0 ([] ++ [(pal, ntsc)])]
        simp
      | succ k => exact ih k acc

theorem confirm_fold_eq_decoded (lines : List ConfirmLine) (skip : Nat) (mp mn : ℚ) :
    (lines.foldl confirmStep (skip, mp, mn)).2 =
      (((lines.foldl decodedStep (skip, [])).2).foldl
        (fun m r => max m (r.1.getD 0)) mp,
       ((lines.foldl decodedStep (skip, [])).2).foldl
        (fun m r => max m (r.2.getD 0)) mn) := by
  induction lines generalizing skip mp mn with
  | nil => rfl
  | cons e rest ih =>
    cases e with
    | unstructured =>
      cases skip with
      | zero => exact ih 0 mp mn
      | succ k => exact ih (k + 1) mp mn
    | malformed =>
      cases skip with
      | zero => exact ih 0 mp mn
      | succ k => exact ih k mp mn
    | record pal ntsc =>
      cases skip with
      | zero =>
        show (rest.foldl confirmStep (0, max mp (pal.getD 0), max mn (ntsc.getD 0))).2 =
          (((rest.foldl decodedStep (0, [] ++ [(pal, ntsc)])).2).foldl
            (fun m r => max m (r.1.getD 0)) mp,
           ((rest.foldl decodedStep (0, [] ++ [(pal, ntsc)])).2).foldl
            (fun m r => max m (r.2.getD 0)) mn)
        rw [ih 0 (max mp (pal.getD 0)) (max mn (ntsc.getD 0)),
          decodedStep_acc rest 0 ([] ++ [(pal, ntsc)])]
        simp
      | succ k => exact ih k mp mn

/-- Classifier output matching the claim's example: two structured header
lines (whose junk scores must not count) followed by records with PAL scores
0.2, 0.9, 0.4 and NTSC scores 0.1, 0.1, 0.8, with an undecodable structured
line and an unstructured line interleaved. -/
def c5Example : List ConfirmLine :=
  [.record (some 1000) (some 1000), .record (some 1000) (some 1000),
   .unstructured,
   .record (some 0.2) (some 0.1),
   .malformed,
   .record (some 0.9) (some 0.1),
   .record (some 0.4) (some 0.8)]

/-- Claim C5 (amended): after skipping the first two structured lines and
ignoring lines that do not decode, the parser returns, for PAL and NTSC
separately, the maximum of 0.0 and all decoded scores (each missing field
counting as 0.0) — equal to the claimed maximum observed score whenever some
decoded score is nonnegative, but floored at 0.0 otherwise; on the claim's
example it returns palScore = 0.9 and ntscScore = 0.8. -/
theorem parse_confirm_best_of_run :
    (∀ lines : List ConfirmLine,
      parseConfirmOutput lines =
        ((decodedRecords lines).foldl (fun m r => max m (r.1.getD 0)) 0,
         (decodedRecords lines).foldl (fun m r => max m (r.2.getD 0)) 0)) ∧
    parseConfirmOutput c5Example = (0.9, 0.8) := by
  constructor
  · intro lines
    exact confirm_fold_eq_decoded lines 2 0 0
  · norm_num [c5Example, parseConfirmOutput, confirmStep]

/-- Counterexample for C5 as stated: the maxima start at 0.0, so a decoded
line whose scores are negative is not returned as the "maximum observed
score" — the parser floors the result at 0.0. Here the only decoded line
after the header has pal = ntsc = -1, yet the parser returns (0, 0). -/
theorem negative_scores_floor_at_zero :
    parseConfirmOutput [.malformed, .malformed, .record (some (-1)) (some (-1))]
      = (0, 0) ∧
    parseConfirmOutput [.malformed, .malformed, .record (some (-1)) (some (-1))]
      ≠ (-1, -1) ∧
    decodedRecords [.malformed, .malformed, .record (some (-1)) (some (-1))]
      = [(some (-1), some (-1))] := by
  have h1 : parseConfirmOutput [.malformed, .malformed, .record (some (-1)) (some (-1))]
      = (0, 0) := by
    norm_num [parseConfirmOutput, confirmStep]
  refine ⟨h1, ?_, ?_⟩
  · rw [h1]
    intro hEq
    have := congrArg Prod.fst hEq
    norm_num at this
  · norm_num [decodedRecords, decodedStep]

/-! ## Claim C4 -/

/-- Classifier output of the C4 scenario: two structured header lines, then a
record with pal = 0.9, ntsc = 0.8. -/
def c4Lines : List ConfirmLine :=
  [.malformed, .malformed, .record (some 0.9) (some 0.8)]

/-- Channel visit of the C4 scenario: publishing enabled, one detected signal
of 6 MHz bandwidth at offset +0.5 MHz from a 5805 MHz center, and a classifier
subprocess that exits with code 1 without an unknown-command signal. -/
def c4Visit : VisitIn :=
  ⟨true, none, 5805000000, some [(500000, 6000000)], .completed 1 c4Lines false⟩

/-- Claim C4 (amended): a subprocess exiting non-zero without either
permanent-disable signal, or timing out, does not disable confirmation and
the scan loop continues (the visit ends by reopening the hardware); but the
captured output is still parsed and `run_confirm` returns the best-of-run
score pair (floored at 0.0), so the result is not the no-score `(None, None)`
and, with publishing enabled, a "confirm" alert carrying those scores is
published. -/
theorem failed_confirm_attempt_behavior :
    (∀ (st : ConfirmState) (rc : Int) (lines : List ConfirmLine),
      st.disabledReason = none → rc ≠ 0 →
      run_confirm st (.completed rc lines false) =
        (st, some (parseConfirmOutput lines), true)) ∧
    (∀ (st : ConfirmState) (lines : List ConfirmLine),
      st.disabledReason = none →
      run_confirm st (.timedOut lines) = (st, some (parseConfirmOutput lines), true)) ∧
    (∀ (st : ConfirmState) (v : VisitIn) (s : ℚ × ℚ) (rest : List (ℚ × ℚ)),
      parse_rf_map v.oracleMsg v.centerHz = s :: rest →
      (visitChannel st v).2.getLast? = some .openHW) := by
  refine ⟨fun st rc lines h hrc => ?_, fun st lines h => ?_, fun st v s rest h => ?_⟩
  · unfold run_confirm
    rw [h]
    simp
  · unfold run_confirm
    rw [h]
  · unfold visitChannel
    rw [h]
    cases hres : (run_confirm st v.subp).2.1 with
    | none =>
      cases hp : v.pubEnabled <;> simp [hres, hp, List.getLast?]
    | some pn =>
      rcases pn with ⟨pal, ntsc⟩
      cases hp : v.pubEnabled <;> simp [hres, hp, List.getLast?]

/-- Witness for C4's amended theorem, at the concrete C4 scenario. -/
theorem failed_confirm_attempt_behavior_witness :
    run_confirm initialConfirmState (.completed 1 c4Lines false) =
      (initialConfirmState, some (parseConfirmOutput c4Lines), true) ∧
    run_confirm initialConfirmState (.timedOut c4Lines) =
      (initialConfirmState, some (parseConfirmOutput c4Lines), true) ∧
    (visitChannel initialConfirmState c4Visit).2.getLast? = some .openHW :=
  ⟨failed_confirm_attempt_behavior.1 initialConfirmState 1 c4Lines rfl (by decide),
   failed_confirm_attempt_behavior.2.1 initialConfirmState c4Lines rfl,
   failed_confirm_attempt_behavior.2.2 initialConfirmState c4Visit
     (5805500000, 6000000) []
     (by norm_num [c4Visit, parse_rf_map, MIN_BW_HZ])⟩

/-- Counterexample for C4 as stated: the claim says such a failed attempt
"returns no scores" and that "no confirm alert carrying scores results from
it". On a non-zero exit (code 1, no disable signal) whose output contains a
valid score record, `run_confirm` returns the parsed scores (0.9, 0.8) — not
the no-score `(None, None)` — and the scan loop publishes a "confirm" alert
carrying exactly those scores. -/
theorem nonzero_exit_still_returns_scores :
    run_confirm initialConfirmState (.completed 1 c4Lines false) =
      (initialConfirmState, some (0.9, 0.8), true) ∧
    (run_confirm initialConfirmState (.completed 1 c4Lines false)).2.1 ≠ none ∧
    Event.publish (build_alert_messages none 5805500000 6000000 0.9 0.8 "confirm")
      ∈ (visitChannel initialConfirmState c4Visit).2 := by
  have h1 : run_confirm initialConfirmState (.completed 1 c4Lines false) =
      (initialConfirmState, some (0.9, 0.8), true) := by
    norm_num [run_confirm, initialConfirmState, c4Lines, parseConfirmOutput, confirmStep]
  refine ⟨h1, ?_, ?_⟩
  · rw [h1]
    simp
  · norm_num [visitChannel, c4Visit, parse_rf_map, MIN_BW_HZ, pyMaxBySnd, run_confirm,
      initialConfirmState, c4Lines, parseConfirmOutput, confirmStep, build_alert_messages]

/-! ## Claim C1 -/

theorem hwAt_append (b : Bool) (xs ys : List Event) :
    hwAt b (xs ++ ys) = hwAt (hwAt b xs) ys := by
  simp [hwAt, List.foldl_append]

theorem confirmsClosed_append (b : Bool) (xs ys : List Event) :
    confirmsClosed b (xs ++ ys) =
      (confirmsClosed b xs && confirmsClosed (hwAt b xs) ys) := by
  induction xs generalizing b with
  | nil => simp [confirmsClosed, hwAt]
  | cons e xs ih =>
    have key : ∀ g : Bool,
        (g && confirmsClosed (hwAfter b e) (xs ++ ys)) =
          (g && confirmsClosed (hwAfter b e) xs &&
            confirmsClosed (hwAt (hwAfter b e) xs) ys) := by
      intro g
      rw [ih (hwAfter b e), Bool.and_assoc]
    exact key _

theorem visit_confirms_closed (st : ConfirmState) (v : VisitIn) :
    confirmsClosed true (visitChannel st v).2 = true ∧
    hwAt true (visitChannel st v).2 = true := by
  unfold visitChannel
  cases h : parse_rf_map v.oracleMsg v.centerHz with
  | nil => exact ⟨rfl, rfl⟩
  | cons s rest =>
    cases hres : (run_confirm st v.subp).2.1 with
    | none =>
      cases hp : v.pubEnabled <;>
        simp [hres, hp, confirmsClosed, hwAfter, hwAt]
    | some pn =>
      rcases pn with ⟨pal, ntsc⟩
      cases hp : v.pubEnabled <;>
        simp [hres, hp, confirmsClosed, hwAfter, hwAt]

theorem visit_count_confirms (st : ConfirmState) (v : VisitIn) :
    countConfirms (visitChannel st v).2 ≤ 1 := by
  unfold visitChannel
  cases h : parse_rf_map v.oracleMsg v.centerHz with
  | nil => simp [countConfirms]
  | cons s rest =>
    cases hres : (run_confirm st v.subp).2.1 with
    | none =>
      cases hp : v.pubEnabled <;> simp [hres, hp, countConfirms]
    | some pn =>
      rcases pn with ⟨pal, ntsc⟩
      cases hp : v.pubEnabled <;> simp [hres, hp, countConfirms]

/-- Claim C1: in every reachable state of the scan loop, a `run_confirm`
invocation happens only while the radio top block is fully closed — over any
sequence of channel visits, every `confirmCall` event in the trace occurs at
a point where the tracked hardware state is closed, the hardware is open
again at the end of the trace (so the invariant is inductive across visits),
and each visit performs at most one confirmation, so in this single-threaded
trace no two confirmations overlap and none overlaps a hardware-open scan. -/
theorem confirm_never_overlaps_open_hardware :
    (∀ (st : ConfirmState) (vs : List VisitIn),
      confirmsClosed true (runVisits st vs).2 = true ∧
      hwAt true (runVisits st vs).2 = true) ∧
    (∀ (st : ConfirmState) (v : VisitIn),
      countConfirms (visitChannel st v).2 ≤ 1) := by
  refine ⟨fun st vs => ?_, visit_count_confirms⟩
  induction vs generalizing st with
  | nil => exact ⟨rfl, rfl⟩
  | cons v rest ih =>
    have hv := visit_confirms_closed st v
    have hr := ih (visitChannel st v).1
    have hsplit : (runVisits st (v :: rest)).2 =
        (visitChannel st v).2 ++ (runVisits (visitChannel st v).1 rest).2 := rfl
    constructor
    · rw [hsplit, confirmsClosed_append, hv.1, hv.2, hr.1]
      rfl
    · rw [hsplit, hwAt_append, hv.2]
      exact hr.2

/-! ## Claim C7 -/

theorem pyMaxBySnd_cons (h s : ℚ × ℚ) (t : List (ℚ × ℚ)) :
    pyMaxBySnd h (s :: t) = pyMaxBySnd (if h.2 < s.2 then s else h) t := rfl

theorem pyMaxBySnd_mem (h : ℚ × ℚ) (t : List (ℚ × ℚ)) : pyMaxBySnd h t ∈ h :: t := by
  induction t generalizing h with
  | nil => simp [pyMaxBySnd]
  | cons s ts ih =>
    rw [pyMaxBySnd_cons]
    rcases List.mem_cons.mp (ih (if h.2 < s.2 then s else h)) with heq | hmem
    · rw [heq]
      split
      · exact List.mem_cons_of_mem _ (List.mem_cons_self _ _)
      · exact List.mem_cons_self _ _
    · exact List.mem_cons_of_mem _ (List.mem_cons_of_mem _ hmem)

theorem pyMaxBySnd_ge (h : ℚ × ℚ) (t : List (ℚ × ℚ)) :
    ∀ x ∈ h :: t, x.2 ≤ (pyMaxBySnd h t).2 := by
  induction t generalizing h with
  | nil =>
    intro x hx
    rcases List.mem_cons.mp hx with rfl | hx
    · exact le_refl _
    · simp at hx
  | cons s ts ih =>
    intro x hx
    rw [pyMaxBySnd_cons]
    have hh : h.2 ≤ (if h.2 < s.2 then s else h).2 := by
      by_cases hc : h.2 < s.2
      · rw [if_pos hc]
        exact le_of_lt hc
      · rw [if_neg hc]
    have hs : s.2 ≤ (if h.2 < s.2 then s else h).2 := by
      by_cases hc : h.2 < s.2
      · rw [if_pos hc]
      · rw [if_neg hc]
        exact le_of_not_lt hc
    have hif := ih (if h.2 < s.2 then s else h) _ (List.mem_cons_self _ _)
    rcases List.mem_cons.mp hx with rfl | hx2
    · exact le_trans hh hif
    · rcases List.mem_cons.mp hx2 with rfl | hx3
      · exact le_trans hs hif
      · exact ih _ x (List.mem_cons_of_mem _ hx3)

/-- Claim C7: on a channel visit with a non-empty detection report the sole
confirmation candidate is the detected pair of maximum bandwidth (an element
of the report that every reported pair's bandwidth is bounded by); with
publishing enabled the "energy" alert for that candidate sits at trace
position 4, strictly before the `run_confirm` invocation at trace position 7,
and the other pairs only appear in the log line, never as candidates. -/
theorem widest_candidate_energy_before_confirm :
    ∀ (st : ConfirmState) (v : VisitIn) (s : ℚ × ℚ) (rest : List (ℚ × ℚ)),
      parse_rf_map v.oracleMsg v.centerHz = s :: rest →
      v.pubEnabled = true →
      (pyMaxBySnd s rest ∈ s :: rest ∧
        ∀ x ∈ s :: rest, x.2 ≤ (pyMaxBySnd s rest).2) ∧
      (visitChannel st v).2.get? 4 =
        some (.publish (build_alert_messages v.gps (pyMaxBySnd s rest).1
          (pyMaxBySnd s rest).2 0 0 "energy")) ∧
      (visitChannel st v).2.get? 7 =
        some (.confirmCall (pyMaxBySnd s rest).1 (run_confirm st v.subp).2.2) := by
  intro st v s rest h hp
  refine ⟨⟨pyMaxBySnd_mem s rest, pyMaxBySnd_ge s rest⟩, ?_, ?_⟩ <;>
    · unfold visitChannel
      rw [h]
      simp only [hp, if_true, List.cons_append, List.nil_append, List.get?]

/-- Witness for C7 at the claim's concrete example: detections at offsets
+0.2 MHz (4.2 MHz wide) and +0.5 MHz (6.0 MHz wide) of a 5805 MHz center; the
selected candidate is the 6.0 MHz pair (5805.5 MHz). -/
theorem widest_candidate_energy_before_confirm_witness :
    ((pyMaxBySnd ((5805200000 : ℚ), (4200000 : ℚ)) [(5805500000, 6000000)] ∈
        [((5805200000 : ℚ), (4200000 : ℚ)), (5805500000, 6000000)] ∧
      ∀ x ∈ [((5805200000 : ℚ), (4200000 : ℚ)), (5805500000, 6000000)],
        x.2 ≤ (pyMaxBySnd (5805200000, 4200000) [(5805500000, 6000000)]).2) ∧
     (visitChannel initialConfirmState
        ⟨true, none, 5805000000, some [(200000, 4200000), (500000, 6000000)],
          .completed 0 [] false⟩).2.get? 4 =
        some (.publish (build_alert_messages none
          (pyMaxBySnd (5805200000, 4200000) [(5805500000, 6000000)]).1
          (pyMaxBySnd (5805200000, 4200000) [(5805500000, 6000000)]).2 0 0 "energy")) ∧
     (visitChannel initialConfirmState
        ⟨true, none, 5805000000, some [(200000, 4200000), (500000, 6000000)],
          .completed 0 [] false⟩).2.get? 7 =
        some (.confirmCall (pyMaxBySnd (5805200000, 4200000) [(5805500000, 6000000)]).1
          (run_confirm initialConfirmState (.completed 0 [] false)).2.2)) ∧
    pyMaxBySnd ((5805200000 : ℚ), (4200000 : ℚ)) [(5805500000, 6000000)] =
      (5805500000, 6000000) :=
  ⟨widest_candidate_energy_before_confirm initialConfirmState
      ⟨true, none, 5805000000, some [(200000, 4200000), (500000, 6000000)],
        .completed 0 [] false⟩
      (5805200000, 4200000) [(5805500000, 6000000)]
      (by norm_num [parse_rf_map, MIN_BW_HZ]) rfl,
   by norm_num [pyMaxBySnd]⟩

/-! ## Claim C10 -/

/-- Claim C10: every alert the scan loop publishes whose Signal Info part is
at the "energy" stage carries pal_conf = 0.0 and ntsc_conf = 0.0 — the energy
alert's classification scores are always the zero placeholders. -/
theorem energy_alert_zero_scores :
    ∀ (st : ConfirmState) (v : VisitIn) (al : List AlertPart),
      Event.publish al ∈ (visitChannel st v).2 →
      ∀ (c b p n : ℚ), AlertPart.signalInfo "energy" c b p n ∈ al →
        p = 0 ∧ n = 0 := by
  intro st v al hal c b p n hpart
  unfold visitChannel at hal
  cases h : parse_rf_map v.oracleMsg v.centerHz with
  | nil =>
    rw [h] at hal
    simp at hal
  | cons s rest =>
    rw [h] at hal
    cases hres : (run_confirm st v.subp).2.1 with
    | none =>
      cases hp : v.pubEnabled <;> simp [hres, hp] at hal
      subst hal
      rcases hgps : v.gps with _ | ⟨la, lo, alq⟩ <;>
        rw [hgps] at hpart <;>
        simp [build_alert_messages] at hpart <;>
        exact ⟨hpart.2.2.1, hpart.2.2.2⟩
    | some pn =>
      rcases pn with ⟨pal, ntsc⟩
      cases hp : v.pubEnabled <;> simp [hres, hp] at hal
      rcases hal with rfl | rfl
      · rcases hgps : v.gps with _ | ⟨la, lo, alq⟩ <;>
          rw [hgps] at hpart <;>
          simp [build_alert_messages] at hpart <;>
          exact ⟨hpart.2.2.1, hpart.2.2.2⟩
      · rcases hgps : v.gps with _ | ⟨la, lo, alq⟩ <;>
          rw [hgps] at hpart <;>
          simp [build_alert_messages] at hpart

/-- Witness for C10 at a concrete visit with publishing enabled: the energy
alert published for a 6 MHz detection at 5805.5 MHz has zero scores. -/
theorem energy_alert_zero_scores_witness : (0 : ℚ) = 0 ∧ (0 : ℚ) = 0 :=
  energy_alert_zero_scores initialConfirmState
    ⟨true, none, 5805000000, some [(500000, 6000000)], .completed 0 [] false⟩
    (build_alert_messages none 5805500000 6000000 0 0 "energy")
    (by norm_num [visitChannel, parse_rf_map, MIN_BW_HZ, pyMaxBySnd, run_confirm,
      initialConfirmState, parseConfirmOutput, confirmStep, build_alert_messages])
    5805500000 6000000 0 0
    (by simp [build_alert_messages])

/-! ## Claim C9 -/

/-- Claim C9 (amended): the location poll never raises and either stores a
new fix or leaves the value unchanged for every message that fails to arrive,
fails JSON decoding, or decodes to a JSON object whose fields it can handle:
lat = 95.0 (out of range) leaves the value unchanged, lat = 45.0,
lon = -120.0, alt = 100.0 becomes the new value, a missing alt defaults to 0,
and invalid or missing lat/lon fields are silently ignored. However the poll
is not exception-free on every message: a message decoding to a non-object
JSON value raises an uncaught `AttributeError` from `payload.get`, and a
valid lat/lon paired with an alt value on which `float()` fails raises an
uncaught `ValueError`. -/
theorem poll_gps_behavior :
    (∀ gps, poll_monitor_for_gps gps .recvNothing = .ok gps ∧
      poll_monitor_for_gps gps .badJson = .ok gps) ∧
    (∀ gps lat lon alt, is_valid_latlon lat lon = false →
      poll_monitor_for_gps gps (.obj lat lon alt) = .ok gps) ∧
    (∀ gps lon alt,
      poll_monitor_for_gps gps (.obj (some (.num 95)) lon alt) = .ok gps) ∧
    (∀ gps, poll_monitor_for_gps gps
      (.obj (some (.num 45)) (some (.num (-120))) (some (.conv 100))) =
        .ok (some (45, -120, 100))) ∧
    (∀ gps la lo a, is_valid_latlon (some (.num la)) (some (.num lo)) = true →
      poll_monitor_for_gps gps
        (.obj (some (.num la)) (some (.num lo)) (some (.conv a))) =
          .ok (some (la, lo, a)) ∧
      poll_monitor_for_gps gps (.obj (some (.num la)) (some (.num lo)) none) =
        .ok (some (la, lo, 0))) ∧
    (∀ gps, poll_monitor_for_gps gps .nonObject = .error "AttributeError") ∧
    (∀ gps la lo, is_valid_latlon (some (.num la)) (some (.num lo)) = true →
      poll_monitor_for_gps gps
        (.obj (some (.num la)) (some (.num lo)) (some .raisesOnFloat)) =
          .error "ValueError") := by
  refine ⟨fun gps => ⟨rfl, rfl⟩, fun gps lat lon alt h => ?_, fun gps lon alt => ?_,
    fun gps => ?_, fun gps la lo a h => ?_, fun gps => rfl, fun gps la lo h => ?_⟩
  · simp [poll_monitor_for_gps, h]
  · have hval : is_valid_latlon (some (.num 95)) lon = false := by
      rcases lon with _ | pv
      · rfl
      · rcases pv with q | _
        · norm_num [is_valid_latlon]
        · rfl
    simp [poll_monitor_for_gps, hval]
  · norm_num [poll_monitor_for_gps, is_valid_latlon, pyFloatOfVal]
  · constructor <;> simp [poll_monitor_for_gps, h, pyFloatOfVal]
  · simp [poll_monitor_for_gps, h]

/-- Witness for C9's amended theorem at concrete messages: an out-of-range
latitude and a non-numeric latitude are ignored, a valid fix is stored, and
the two raising shapes raise. -/
theorem poll_gps_behavior_witness :
    poll_monitor_for_gps (some (1, 2, 3)) (.obj (some .nonNumeric) (some (.num 0)) none) =
      .ok (some (1, 2, 3)) ∧
    poll_monitor_for_gps (some (1, 2, 3)) (.obj (some (.num 95)) (some (.num 0)) none) =
      .ok (some (1, 2, 3)) ∧
    poll_monitor_for_gps none
      (.obj (some (.num 45)) (some (.num (-120))) (some (.conv 100))) =
        .ok (some (45, -120, 100)) ∧
    poll_monitor_for_gps none
      (.obj (some (.num 45)) (some (.num (-120))) (some (.conv 100))) =
        .ok (some (45, -120, 100)) ∧
    poll_monitor_for_gps none
      (.obj (some (.num 45)) (some (.num (-120))) (some .raisesOnFloat)) =
        .error "ValueError" :=
  ⟨poll_gps_behavior.2.1 (some (1, 2, 3)) (some .nonNumeric) (some (.num 0)) none rfl,
   poll_gps_behavior.2.2.1 (some (1, 2, 3)) (some (.num 0)) none,
   poll_gps_behavior.2.2.2.1 none,
   (poll_gps_behavior.2.2.2.2.1 none 45 (-120) 100
     (by norm_num [is_valid_latlon])).1,
   poll_gps_behavior.2.2.2.2.2.2 none 45 (-120) (by norm_num [is_valid_latlon])⟩

/-- Counterexample for C9 as stated: the claim says any malformed telemetry
message is silently ignored and the poll never raises, but a message whose
body is valid JSON that is not an object (for example the bare number 5)
slips past the `json.JSONDecodeError` handler and `payload.get("lat")`
raises an uncaught `AttributeError`; likewise a valid lat/lon with a
non-convertible alt raises `ValueError` from `float(alt)`. -/
theorem poll_gps_nonobject_raises :
    poll_monitor_for_gps (some (1, 2, 3)) .nonObject = .error "AttributeError" ∧
    poll_monitor_for_gps (some (1, 2, 3))
      (.obj (some (.num 45)) (some (.num (-120))) (some .raisesOnFloat)) =
        .error "ValueError" := by
  constructor
  · rfl
  · norm_num [poll_monitor_for_gps, is_valid_latlon]

end FpvScan
